import Mathlib

/-!
Verification of the Nursle symptom-scoring / prediction pipeline
(`backend/ai_services.py`, `backend/ai_integration.py`, `backend/app.py`).

The pipeline is pure, deterministic computation over hand-authored keyword
and multiplier tables.  We embed it shallowly:

* free text is a `List Char`; Python's substring test `needle in hay`
  becomes `isSubstrOf`;
* Python floats become exact rationals `ℚ` (all constants in the source are
  short decimal literals, so the idealised exact arithmetic is the natural
  reading; `round(x, n)` becomes `pyRound3` / `pyRound2`, half rounded up);
* Python `int(x)` truncation toward zero becomes `truncQ`, and integer
  floor division `//` becomes `Int.fdiv`;
* fallible code (`raise ValueError` caught by the service manager) becomes
  `Except String`;
* Python's stable `list.sort(key=..., reverse=True)` becomes the stable
  descending insertion sort `sortDesc`.
-/

namespace Nursle

/-- Free text, modelling a Python `str`. -/
abbrev Text := List Char

/-- Python `str.lower()` (the inputs at hand are ASCII). -/
def lowerText (t : Text) : Text := t.map Char.toLower

/-- Python's substring containment `needle in hay`. -/
def isSubstrOf (needle : Text) : Text → Bool
  | [] => needle.isEmpty
  | c :: rest => needle.isPrefixOf (c :: rest) || isSubstrOf needle rest

/-- Python `round(q, 3)` (exact-rational idealisation, halves up). -/
def pyRound3 (q : ℚ) : ℚ := (⌊q * 1000 + 1/2⌋ : ℚ) / 1000

/-- Python `round(q, 2)` (exact-rational idealisation, halves up). -/
def pyRound2 (q : ℚ) : ℚ := (⌊q * 100 + 1/2⌋ : ℚ) / 100

/-- Python `int(q)`: truncation toward zero. -/
def truncQ (q : ℚ) : ℤ := if 0 ≤ q then ⌊q⌋ else ⌈q⌉

/-! ## DiagnosticEngine (`ai_services.py`, class `DiagnosticEngine`) -/

/-- `DiagnosticEngine.symptom_keywords` (insertion order preserved). -/
def symptomKeywords : List (String × List Text) :=
  [ ("respiratory",
      ["cough".toList, "shortness of breath".toList, "dyspnea".toList,
       "wheezing".toList, "chest pain".toList]),
    ("cardiac",
      ["chest pain".toList, "palpitations".toList, "heart racing".toList,
       "irregular heartbeat".toList]),
    ("neurological",
      ["headache".toList, "dizziness".toList, "confusion".toList,
       "seizure".toList, "weakness".toList]),
    ("gastrointestinal",
      ["nausea".toList, "vomiting".toList, "diarrhea".toList,
       "abdominal pain".toList]),
    ("infectious",
      ["fever".toList, "chills".toList, "fatigue".toList,
       "body aches".toList, "sore throat".toList]) ]

/-- One entry of `DiagnosticEngine.condition_database`. -/
structure ConditionEntry where
  name : String
  severity : String
  base_confidence : ℚ
deriving DecidableEq

/-- `DiagnosticEngine.condition_database` (only three categories have tables). -/
def conditionDatabase (category : String) : Option (List ConditionEntry) :=
  if category = "respiratory" then
    some [ ⟨"Common Cold", "Low", 0.8⟩, ⟨"Influenza", "Medium", 0.75⟩,
           ⟨"Pneumonia", "High", 0.7⟩, ⟨"Bronchitis", "Medium", 0.72⟩ ]
  else if category = "cardiac" then
    some [ ⟨"Chest Pain Syndrome", "High", 0.85⟩, ⟨"Arrhythmia", "Medium", 0.7⟩,
           ⟨"Angina", "High", 0.8⟩ ]
  else if category = "neurological" then
    some [ ⟨"Migraine", "Medium", 0.75⟩, ⟨"Tension Headache", "Low", 0.8⟩,
           ⟨"Vertigo", "Medium", 0.7⟩ ]
  else none

/-- `BaseAIService.confidence_threshold`, set to `0.7` in `__init__`. -/
def confidenceThreshold : ℚ := 0.7

/-- Loop body of `DiagnosticEngine._analyze_symptom_categories`:
for each category count the keywords contained in the text and, when at
least one matched, record `min(score / len(keywords), 1.0)`. -/
def analyzeAux (symptoms : Text) : List (String × List Text) → List (String × ℚ)
  | [] => []
  | (category, keywords) :: rest =>
    let cnt := keywords.countP (fun k => isSubstrOf k symptoms)
    if 0 < cnt then
      (category, min ((cnt : ℚ) / (keywords.length : ℚ)) 1) :: analyzeAux symptoms rest
    else
      analyzeAux symptoms rest

/-- `DiagnosticEngine._analyze_symptom_categories`. -/
def analyzeSymptomCategories (symptoms : Text) : List (String × ℚ) :=
  analyzeAux symptoms symptomKeywords

/-- Age factor of `DiagnosticEngine._calculate_confidence`
(`if age > 65 or age < 5: 1.1 elif age > 50: 1.05 else 1.0`). -/
def ageFactor (age : ℤ) : ℚ :=
  if 65 < age ∨ age < 5 then 1.1
  else if 50 < age then 1.05
  else 1

/-- `DiagnosticEngine._calculate_confidence`. -/
def calculateConfidence (base_confidence symptom_score : ℚ) (age : ℤ)
    (_gender : String) : ℚ :=
  let age_factor := ageFactor age
  let gender_factor : ℚ := 1
  min (base_confidence * symptom_score * age_factor * gender_factor) 0.98

/-- One diagnosis dict appended by `DiagnosticEngine._generate_diagnoses`. -/
structure Diagnosis where
  condition : String
  confidence : ℚ
  severity : String
  category : String
deriving DecidableEq

/-- Candidate accumulation loop of `DiagnosticEngine._generate_diagnoses`:
for each `(category, score)` pair, when the category has a condition table
and `score > 0.3`, keep every condition whose confidence reaches the
threshold, storing the confidence rounded to three decimals. -/
def diagnosisCandidates (age : ℤ) (gender : String) :
    List (String × ℚ) → List Diagnosis
  | [] => []
  | (category, score) :: rest =>
    (match conditionDatabase category with
     | some conditions =>
       if 0.3 < score then
         conditions.filterMap (fun cond =>
           let confidence := calculateConfidence cond.base_confidence score age gender
           if confidenceThreshold ≤ confidence then
             some ⟨cond.name, pyRound3 confidence, cond.severity, category⟩
           else none)
       else []
     | none => []) ++ diagnosisCandidates age gender rest

/-- Stable insertion of one element into a list sorted descending by
confidence (the element goes before the first entry not above it). -/
def insertDesc (a : Diagnosis) : List Diagnosis → List Diagnosis
  | [] => [a]
  | b :: l => if b.confidence ≤ a.confidence then a :: b :: l else b :: insertDesc a l

/-- Python's stable `diagnoses.sort(key=lambda x: x["confidence"], reverse=True)`. -/
def sortDesc : List Diagnosis → List Diagnosis
  | [] => []
  | a :: l => insertDesc a (sortDesc l)

/-- `DiagnosticEngine._generate_diagnoses`: accumulate candidates, sort by
confidence descending, return the top 5. -/
def generateDiagnoses (category_scores : List (String × ℚ)) (age : ℤ)
    (gender : String) : List Diagnosis :=
  (sortDesc (diagnosisCandidates age gender category_scores)).take 5

/-- `DiagnosticEngine._generate_recommendations`. -/
def generateRecommendations (diagnoses : List Diagnosis) : List String :=
  if diagnoses.isEmpty then
    ["Please consult with a healthcare professional for proper evaluation."]
  else
    let recommendations :=
      [ "Monitor vital signs closely",
        "Ensure patient comfort and positioning",
        "Document all symptoms and their progression" ]
    let high_severity := diagnoses.any (fun d => d.severity == "High")
    if high_severity then
      recommendations ++
        [ "Consider immediate medical intervention",
          "Prepare for potential emergency procedures",
          "Notify attending physician immediately" ]
    else
      recommendations ++
        [ "Schedule follow-up within 24-48 hours",
          "Provide patient education on symptom monitoring" ]

/-- Input dict of `DiagnosticEngine.process` (fields optional: Python
`validate_input` only checks key presence, and `.get` supplies defaults). -/
structure DiagInput where
  symptoms : Option Text
  age : Option ℤ
  gender : Option String

/-- Result dict of `DiagnosticEngine.process` (the wall-clock
`processing_time` entry is outside the embedding). -/
structure DiagOutput where
  diagnosis : List Diagnosis
  recommendations : List String
  confidence : ℚ
deriving DecidableEq

deriving instance DecidableEq for Except

/-- `DiagnosticEngine.process`: validate that the `symptoms` key exists,
lowercase, score categories, generate diagnoses and recommendations;
`confidence` is the max diagnosis confidence, `0.0` when there is none. -/
def diagnosticProcess (input : DiagInput) : Except String DiagOutput :=
  match input.symptoms with
  | none => .error "Missing required field: symptoms"
  | some raw =>
    let symptoms := lowerText raw
    let age := input.age.getD 30
    let gender := input.gender.getD "Unknown"
    let category_scores := analyzeSymptomCategories symptoms
    let diagnoses := generateDiagnoses category_scores age gender
    let recommendations := generateRecommendations diagnoses
    .ok { diagnosis := diagnoses,
          recommendations := recommendations,
          confidence :=
            match diagnoses.map (fun d => d.confidence) with
            | [] => 0
            | x :: xs => xs.foldl max x }

/-! ## PredictiveAnalytics (`ai_services.py`, class `PredictiveAnalytics`) -/

/-- One entry of `PredictiveAnalytics.recovery_models`. -/
structure RecoveryModel where
  base_days : ℚ
  variance : ℚ
  complications_risk : ℚ

/-- `PredictiveAnalytics.recovery_models` (no entry for `"general"`). -/
def recoveryModels (condition_type : String) : Option RecoveryModel :=
  if condition_type = "respiratory" then some ⟨7, 3, 0.15⟩
  else if condition_type = "cardiac" then some ⟨14, 7, 0.25⟩
  else if condition_type = "neurological" then some ⟨21, 10, 0.20⟩
  else if condition_type = "infectious" then some ⟨5, 2, 0.10⟩
  else none

/-- Keyword lists checked, in order, by
`PredictiveAnalytics._classify_condition_type`. -/
def cardiacCheckKeywords : List Text :=
  ["chest pain".toList, "heart".toList, "cardiac".toList]

def respiratoryCheckKeywords : List Text :=
  ["cough".toList, "breathing".toList, "respiratory".toList]

def neurologicalCheckKeywords : List Text :=
  ["headache".toList, "dizziness".toList, "neurological".toList]

def infectiousCheckKeywords : List Text :=
  ["fever".toList, "infection".toList, "chills".toList]

/-- `PredictiveAnalytics._classify_condition_type`: lowercase the text and
test the keyword groups in a fixed order, first match wins. -/
def classifyConditionType (symptoms : Text) : String :=
  let symptoms_lower := lowerText symptoms
  if cardiacCheckKeywords.any (fun k => isSubstrOf k symptoms_lower) then "cardiac"
  else if respiratoryCheckKeywords.any (fun k => isSubstrOf k symptoms_lower) then "respiratory"
  else if neurologicalCheckKeywords.any (fun k => isSubstrOf k symptoms_lower) then "neurological"
  else if infectiousCheckKeywords.any (fun k => isSubstrOf k symptoms_lower) then "infectious"
  else "general"

/-- Age adjustment of `PredictiveAnalytics._predict_recovery_time`. -/
def ageMultiplier (age : ℤ) : ℚ :=
  if 65 < age then 1.3
  else if age < 18 then 0.8
  else 1

/-- Priority adjustment of `PredictiveAnalytics._predict_recovery_time`
(dict lookup with default `1.0`). -/
def priorityMultiplier (priority : String) : ℚ :=
  if priority = "High" then 1.2
  else if priority = "Medium" then 1.0
  else if priority = "Low" then 0.9
  else 1.0

/-- The unclamped recovery-confidence formula
`confidence = 0.85 - (variance * 0.05)`. -/
def recoveryConfidence (variance : ℚ) : ℚ := 0.85 - variance * 0.05

/-- Result dict of `PredictiveAnalytics._predict_recovery_time`. -/
structure RecoveryPrediction where
  estimated_days : ℤ
  confidence : ℚ
  range_min : ℚ
  range_max : ℚ
deriving DecidableEq

/-- `PredictiveAnalytics._predict_recovery_time` (unknown condition types
fall back to `base_days = 10`, `variance = 5`). -/
def predictRecoveryTime (condition_type : String) (age : ℤ)
    (priority : String) : RecoveryPrediction :=
  let bv : ℚ × ℚ :=
    match recoveryModels condition_type with
    | none => (10, 5)
    | some model => (model.base_days, model.variance)
  let estimated_days := truncQ (bv.1 * ageMultiplier age * priorityMultiplier priority)
  { estimated_days := estimated_days,
    confidence := pyRound2 (recoveryConfidence bv.2),
    range_min := (estimated_days : ℚ) - bv.2,
    range_max := (estimated_days : ℚ) + bv.2 }

/-- Result dict of `PredictiveAnalytics._assess_complications_risk`. -/
structure RiskAssessment where
  risk_level : String
  probability : ℚ
deriving DecidableEq

/-- `PredictiveAnalytics._assess_complications_risk`. -/
def assessComplicationsRisk (condition_type : String) (age : ℤ) : RiskAssessment :=
  let base_risk := ((recoveryModels condition_type).map
    (fun m => m.complications_risk)).getD 0.15
  let risk_multiplier : ℚ :=
    if 70 < age then 2.0
    else if 60 < age then 1.5
    else if age < 18 then 1.2
    else 1.0
  let final_risk := min (base_risk * risk_multiplier) 0.8
  { risk_level :=
      if 0.4 < final_risk then "High"
      else if 0.2 < final_risk then "Medium"
      else "Low",
    probability := pyRound3 final_risk }

/-- Result dict of `PredictiveAnalytics._predict_resource_requirements`. -/
structure ResourceNeeds where
  bed_days : ℤ
  specialist_required : Bool
  follow_up_visits : ℤ
  estimated_cost : ℤ
deriving DecidableEq

/-- `PredictiveAnalytics._predict_resource_requirements` (Python `//` is
floor division, `Int.fdiv`). -/
def predictResourceRequirements (condition_type : String)
    (recovery_prediction : RecoveryPrediction) : ResourceNeeds :=
  let estimated_days := recovery_prediction.estimated_days
  let bed_days := max 1 (Int.fdiv estimated_days 3)
  let specialist_required := condition_type == "cardiac" || condition_type == "neurological"
  let follow_up_visits := min (max 1 (Int.fdiv estimated_days 7)) 4
  { bed_days := bed_days,
    specialist_required := specialist_required,
    follow_up_visits := follow_up_visits,
    estimated_cost := bed_days * 500 + follow_up_visits * 150 }

/-- Base outcome-probability triple (full, partial, chronic) of
`PredictiveAnalytics._calculate_outcome_probabilities` (dict lookup with
the default triple for unknown condition types, `"general"` included). -/
def baseOutcomeProbs (condition_type : String) : ℚ × ℚ × ℚ :=
  if condition_type = "respiratory" then (0.85, 0.12, 0.03)
  else if condition_type = "cardiac" then (0.75, 0.20, 0.05)
  else if condition_type = "neurological" then (0.70, 0.25, 0.05)
  else if condition_type = "infectious" then (0.90, 0.08, 0.02)
  else (0.80, 0.15, 0.05)

/-- Age adjustment of `_calculate_outcome_probabilities`:
`full *= 0.9, chronic *= 1.5` when `age > 65`. -/
def adjustedOutcomeProbs (condition_type : String) (age : ℤ) : ℚ × ℚ × ℚ :=
  let b := baseOutcomeProbs condition_type
  if 65 < age then (b.1 * 0.9, b.2.1, b.2.2 * 1.5) else b

/-- Result dict of `_calculate_outcome_probabilities`. -/
structure OutcomeProbs where
  full_recovery : ℚ
  partial_recovery : ℚ
  chronic_condition : ℚ
deriving DecidableEq

/-- `PredictiveAnalytics._calculate_outcome_probabilities`: adjust the base
triple, normalize by the total, round each entry to three decimals. -/
def calculateOutcomeProbabilities (condition_type : String) (age : ℤ) : OutcomeProbs :=
  let b := adjustedOutcomeProbs condition_type age
  let total := b.1 + b.2.1 + b.2.2
  { full_recovery := pyRound3 (b.1 / total),
    partial_recovery := pyRound3 (b.2.1 / total),
    chronic_condition := pyRound3 (b.2.2 / total) }

/-- Input dict of `PredictiveAnalytics.process`. -/
structure PredInput where
  symptoms : Option Text
  age : Option ℤ
  priority : Option String

/-- Result dict of `PredictiveAnalytics.process` (wall-clock
`processing_time` omitted). -/
structure PredOutput where
  recovery_time : RecoveryPrediction
  complications_risk : RiskAssessment
  resource_needs : ResourceNeeds
  outcome_prediction : OutcomeProbs
  condition_type : String
deriving DecidableEq

/-- `PredictiveAnalytics.process`. -/
def predictiveProcess (input : PredInput) : Except String PredOutput :=
  match input.symptoms with
  | none => .error "Missing required field: symptoms"
  | some raw =>
    let condition_type := classifyConditionType raw
    let age := input.age.getD 30
    let priority := input.priority.getD "Medium"
    let recovery_prediction := predictRecoveryTime condition_type age priority
    .ok { recovery_time := recovery_prediction,
          complications_risk := assessComplicationsRisk condition_type age,
          resource_needs := predictResourceRequirements condition_type recovery_prediction,
          outcome_prediction := calculateOutcomeProbabilities condition_type age,
          condition_type := condition_type }

/-! ## AIServiceManager (`ai_services.py`) and the integration façade
(`ai_integration.py`, `app.py`) -/

/-- Python truthiness filter for the manager's `if age:` guard: both `None`
and `0` are falsy, so the key is only added for a nonzero age. -/
def truthyAge : Option ℤ → Option ℤ
  | some a => if a = 0 then none else some a
  | none => none

/-- Python truthiness filter for `if gender:` / `if priority:`: `None` and
the empty string are falsy. -/
def truthyStr : Option String → Option String
  | some s => if s.isEmpty then none else some s
  | none => none

/-- Result of `AIServiceManager.get_diagnosis`: the normal pipeline result,
or the static fallback payload of `_get_fallback_diagnosis` when the
pipeline raised. -/
inductive ManagerDiagResult where
  | ok (r : DiagOutput)
  | fallback
deriving DecidableEq

/-- `AIServiceManager.get_diagnosis`: build the input dict (dropping falsy
`age`/`gender`), run the engine, catch any exception. -/
def managerGetDiagnosis (symptoms : Text) (age : Option ℤ)
    (gender : Option String) : ManagerDiagResult :=
  match diagnosticProcess
      { symptoms := some symptoms, age := truthyAge age, gender := truthyStr gender } with
  | .ok r => .ok r
  | .error _ => .fallback

/-- Result of `AIServiceManager.get_predictions`. -/
inductive ManagerPredResult where
  | ok (r : PredOutput)
  | fallback
deriving DecidableEq

/-- `AIServiceManager.get_predictions`. -/
def managerGetPredictions (symptoms : Text) (age : Option ℤ)
    (priority : Option String) : ManagerPredResult :=
  match predictiveProcess
      { symptoms := some symptoms, age := truthyAge age, priority := truthyStr priority } with
  | .ok r => .ok r
  | .error _ => .fallback

/-- `AIIntegration._get_confidence_label`. -/
def confidenceLabel (confidence : ℚ) : String :=
  if 0.9 ≤ confidence then "Very High"
  else if 0.8 ≤ confidence then "High"
  else if 0.7 ≤ confidence then "Moderate"
  else if 0.6 ≤ confidence then "Low"
  else "Very Low"

/-- One formatted diagnosis entry of `_format_diagnosis_response`. -/
structure FormattedDiagnosis where
  condition : String
  confidence : ℚ
  severity : String
  confidence_label : String
deriving DecidableEq

/-- Payload of `_format_diagnosis_response`. -/
structure FormattedDiagResponse where
  diagnosis : List FormattedDiagnosis
  recommendations : List String
  overall_confidence : ℚ
  disclaimer : String
deriving DecidableEq

def aiDisclaimer : String :=
  "This AI analysis is for informational purposes only and should not replace professional medical diagnosis."

/-- `AIIntegration._format_diagnosis_response`, applied to either the
normal engine result or the manager's static fallback payload. -/
def formatDiagnosisResponse : ManagerDiagResult → FormattedDiagResponse
  | .ok r =>
    { diagnosis := r.diagnosis.map (fun d =>
        ⟨d.condition, d.confidence, d.severity, confidenceLabel d.confidence⟩),
      recommendations := r.recommendations,
      overall_confidence := r.confidence,
      disclaimer := aiDisclaimer }
  | .fallback =>
    { diagnosis := [⟨"Medical Evaluation Needed", 0.5, "Medium", confidenceLabel 0.5⟩],
      recommendations :=
        [ "AI service temporarily unavailable",
          "Please conduct manual assessment",
          "Consult with attending physician" ],
      overall_confidence := 0.5,
      disclaimer := aiDisclaimer }

/-- The static manual-assessment guidance payload
(`AIIntegration._get_manual_assessment_guidance`). -/
structure ManualGuidance where
  guidance : List String
  manual_factors : List String
  escalation_criteria : List String
deriving DecidableEq

def manualAssessmentGuidance : ManualGuidance :=
  { guidance :=
      [ "AI service is temporarily unavailable",
        "Please proceed with standard clinical assessment protocols",
        "Consider the following manual triage factors:" ],
    manual_factors :=
      [ "Vital signs (temperature, blood pressure, heart rate, respiratory rate)",
        "Pain level assessment (1-10 scale)",
        "Patient mobility and consciousness level",
        "Medical history and current medications",
        "Duration and progression of symptoms" ],
    escalation_criteria :=
      [ "Severe chest pain or difficulty breathing",
        "Signs of stroke or neurological deficits",
        "Severe bleeding or trauma",
        "Loss of consciousness or altered mental state",
        "Vital signs outside normal ranges" ] }

/-- Result of `AIIntegration.process_symptom_check`. -/
structure FacadeDiagResult where
  success : Bool
  data : Option FormattedDiagResponse
  error : Option String
  fallback_data : Option ManualGuidance
deriving DecidableEq

/-- `AIIntegration.process_symptom_check`.  The `except` branch of the
source returns `success: false` with `manualAssessmentGuidance`; it is
unreachable in the embedding because the data path is total:
`get_diagnosis` already catches every pipeline exception and substitutes
its own fallback payload. -/
def processSymptomCheck (symptoms : Text) (age : Option ℤ)
    (gender : Option String) : FacadeDiagResult :=
  let ai_result := managerGetDiagnosis symptoms age gender
  { success := true,
    data := some (formatDiagnosisResponse ai_result),
    error := none,
    fallback_data := none }

/-- Age coercion of the HTTP routes `check_symptoms` and `predict_outcome`
(`app.py`): a missing age becomes `0` (an unparsable age also becomes `0`
via the `except` branch; JSON parsing itself is outside the embedding). -/
def routeAgeVal (age : Option ℤ) : ℤ := age.getD 0

/-! ## Spec-side definitions

These follow the wording of the specification, to be compared with the
definitions translated from the source. -/

/-- Spec wording of the diagnosis age factor: `1.1` if age>65 or age<5,
`1.05` if 50<age≤65, else `1.0`. -/
def specAgeFactor (age : ℤ) : ℚ :=
  if 65 < age ∨ age < 5 then 1.1
  else if 50 < age ∧ age ≤ 65 then 1.05
  else 1

/-- Spec wording of the gender factor: "always 1.0". -/
def specGenderFactor : ℚ := 1

/-- Spec wording of the candidate list of the diagnosis generator: for each
category with score > 0.3, for each condition in that category's static
table (an absent table is empty), compute
`confidence = min(base_confidence * category_score * age_factor * gender_factor, 0.98)`
and keep the candidates reaching the default threshold 0.7.  Stored
confidences are rounded to three decimals, as in the returned payload. -/
def specCandidates (age : ℤ) : List (String × ℚ) → List Diagnosis
  | [] => []
  | (category, score) :: rest =>
    (if 0.3 < score then
      ((conditionDatabase category).getD []).filterMap (fun cond =>
        let confidence :=
          min (cond.base_confidence * score * specAgeFactor age * specGenderFactor) 0.98
        if 0.7 ≤ confidence then
          some ⟨cond.name, pyRound3 confidence, cond.severity, category⟩
        else none)
    else []) ++ specCandidates age rest

/-- Spec wording of the diagnosis generator: collect the candidates, sort
descending by confidence, return at most 5. -/
def specGenerateDiagnoses (category_scores : List (String × ℚ)) (age : ℤ)
    (_gender : String) : List Diagnosis :=
  (sortDesc (specCandidates age category_scores)).take 5

/-- Spec wording of the outcome-predictor classifier: check the categories
in the fixed priority order cardiac, respiratory, neurological, infectious;
the first group with a keyword in the text wins, else "general". -/
def specClassifierOrder : List (String × List Text) :=
  [ ("cardiac", cardiacCheckKeywords),
    ("respiratory", respiratoryCheckKeywords),
    ("neurological", neurologicalCheckKeywords),
    ("infectious", infectiousCheckKeywords) ]

def specPriorityClassify (symptoms : Text) : String :=
  match specClassifierOrder.find?
      (fun p => p.2.any (fun k => isSubstrOf k (lowerText symptoms))) with
  | some p => p.1
  | none => "general"

/-- Spec wording of the recommendation lists: the single-element
professional-evaluation list, the fixed 3-item baseline, the 3 urgent
items, the 2 routine-followup items. -/
def consultRecommendation : String :=
  "Please consult with a healthcare professional for proper evaluation."

def baselineRecommendations : List String :=
  [ "Monitor vital signs closely",
    "Ensure patient comfort and positioning",
    "Document all symptoms and their progression" ]

def urgentRecommendations : List String :=
  [ "Consider immediate medical intervention",
    "Prepare for potential emergency procedures",
    "Notify attending physician immediately" ]

def routineFollowupRecommendations : List String :=
  [ "Schedule follow-up within 24-48 hours",
    "Provide patient education on symptom monitoring" ]

/-! ## Helper lemmas -/

/-- The `if/elif` age-factor chain of `_calculate_confidence` agrees with
the spec's piecewise description. -/
theorem ageFactor_eq_specAgeFactor (age : ℤ) : ageFactor age = specAgeFactor age := by
  unfold ageFactor specAgeFactor
  split_ifs <;> first | rfl | omega

/-- `_calculate_confidence` agrees with the spec's closed formula. -/
theorem calculateConfidence_eq_spec (b s : ℚ) (age : ℤ) (g : String) :
    calculateConfidence b s age g =
      min (b * s * specAgeFactor age * specGenderFactor) 0.98 := by
  unfold calculateConfidence specGenderFactor
  rw [ageFactor_eq_specAgeFactor]

/-- The candidate loop of `_generate_diagnoses` agrees with the spec's
description of the considered candidates. -/
theorem diagnosisCandidates_eq_spec (age : ℤ) (gender : String)
    (cs : List (String × ℚ)) :
    diagnosisCandidates age gender cs = specCandidates age cs := by
  induction cs with
  | nil => rfl
  | cons p rest ih =>
    obtain ⟨category, score⟩ := p
    unfold diagnosisCandidates specCandidates
    rw [ih]
    congr 1
    cases h : conditionDatabase category with
    | none => simp [h]
    | some conds =>
      simp only [h, Option.getD_some]
      have hfun : ∀ cond : ConditionEntry,
          (if confidenceThreshold ≤ calculateConfidence cond.base_confidence score age gender then
            some (⟨cond.name, pyRound3 (calculateConfidence cond.base_confidence score age gender),
              cond.severity, category⟩ : Diagnosis)
          else none) =
          (if 0.7 ≤ min (cond.base_confidence * score * specAgeFactor age * specGenderFactor) 0.98 then
            some (⟨cond.name,
              pyRound3 (min (cond.base_confidence * score * specAgeFactor age * specGenderFactor) 0.98),
              cond.severity, category⟩ : Diagnosis)
          else none) := by
        intro cond
        rw [calculateConfidence_eq_spec]
        rfl
      split_ifs with hsc
      · exact List.filterMap_congr (fun cond _ => hfun cond)
      · rfl

theorem mem_insertDesc {x a : Diagnosis} {l : List Diagnosis} :
    x ∈ insertDesc a l ↔ x = a ∨ x ∈ l := by
  induction l with
  | nil => simp [insertDesc]
  | cons b t ih =>
    unfold insertDesc
    split_ifs with h
    · simp [or_comm, or_left_comm]
    · simp [ih, or_comm, or_left_comm]

theorem pairwise_insertDesc {a : Diagnosis} {l : List Diagnosis}
    (h : l.Pairwise (fun p q => q.confidence ≤ p.confidence)) :
    (insertDesc a l).Pairwise (fun p q => q.confidence ≤ p.confidence) := by
  induction l with
  | nil => simp [insertDesc]
  | cons b t ih =>
    rw [List.pairwise_cons] at h
    unfold insertDesc
    split_ifs with hba
    · refine List.pairwise_cons.mpr ⟨?_, List.pairwise_cons.mpr h⟩
      intro x hx
      rcases List.mem_cons.mp hx with rfl | hx
      · exact hba
      · exact (h.1 x hx).trans hba
    · refine List.pairwise_cons.mpr ⟨?_, ih h.2⟩
      intro x hx
      rcases mem_insertDesc.mp hx with rfl | hx
      · exact le_of_not_le hba
      · exact h.1 x hx

theorem sortDesc_pairwise (l : List Diagnosis) :
    (sortDesc l).Pairwise (fun p q => q.confidence ≤ p.confidence) := by
  induction l with
  | nil => exact List.Pairwise.nil
  | cons a t ih => exact pairwise_insertDesc ih

theorem mem_sortDesc {x : Diagnosis} {l : List Diagnosis} :
    x ∈ sortDesc l ↔ x ∈ l := by
  induction l with
  | nil => simp [sortDesc]
  | cons a t ih => simp [sortDesc, mem_insertDesc, ih]

/-- Rounding to three decimals cannot push a kept confidence below `0` or
above the `0.98` cap. -/
theorem pyRound3_bounds {q : ℚ} (h1 : 0.7 ≤ q) (h2 : q ≤ 0.98) :
    0 ≤ pyRound3 q ∧ pyRound3 q ≤ 0.98 := by
  unfold pyRound3
  have hlo : (0 : ℤ) ≤ ⌊q * 1000 + 1/2⌋ := Int.le_floor.mpr (by push_cast; linarith)
  have hhi : ⌊q * 1000 + 1/2⌋ < 981 := Int.floor_lt.mpr (by push_cast; linarith)
  have hhi' : ((⌊q * 1000 + 1/2⌋ : ℤ) : ℚ) ≤ 980 := by exact_mod_cast Int.lt_add_one_iff.mp hhi
  have hlo' : (0 : ℚ) ≤ ((⌊q * 1000 + 1/2⌋ : ℤ) : ℚ) := by exact_mod_cast hlo
  constructor
  · positivity
  · rw [div_le_iff₀ (by norm_num : (0:ℚ) < 1000)]
    linarith

/-- Every candidate accumulated by the `_generate_diagnoses` loop has a
(rounded) confidence in `[0, 0.98]`. -/
theorem diagnosisCandidates_confidence_bounds {age : ℤ} {gender : String}
    {cs : List (String × ℚ)} {d : Diagnosis}
    (hd : d ∈ diagnosisCandidates age gender cs) :
    0 ≤ d.confidence ∧ d.confidence ≤ 0.98 := by
  induction cs with
  | nil => cases hd
  | cons p rest ih =>
    obtain ⟨category, score⟩ := p
    unfold diagnosisCandidates at hd
    rcases List.mem_append.mp hd with hleft | hright
    · rcases hcd : conditionDatabase category with _ | conds
      · rw [hcd] at hleft; cases hleft
      · rw [hcd] at hleft
        dsimp only at hleft
        by_cases hsc : (0.3 : ℚ) < score
        · rw [if_pos hsc] at hleft
          obtain ⟨cond, -, hcond⟩ := List.mem_filterMap.mp hleft
          by_cases hth : confidenceThreshold ≤ calculateConfidence cond.base_confidence score age gender
          · rw [if_pos hth] at hcond
            obtain rfl := Option.some.inj hcond
            have hcap : calculateConfidence cond.base_confidence score age gender ≤ 0.98 := by
              unfold calculateConfidence
              exact min_le_right _ _
            have h07 : (0.7 : ℚ) ≤ calculateConfidence cond.base_confidence score age gender := hth
            exact pyRound3_bounds h07 hcap
          · rw [if_neg hth] at hcond; cases hcond
        · rw [if_neg hsc] at hleft; cases hleft
    · exact ih hright

/-- Rounding to three decimals moves a value by at most `1/2000`. -/
theorem pyRound3_sub_abs_le (q : ℚ) : |pyRound3 q - q| ≤ 1/2000 := by
  unfold pyRound3
  have hf1 : ((⌊q * 1000 + 1/2⌋ : ℤ) : ℚ) ≤ q * 1000 + 1/2 := Int.floor_le _
  have hf2 : q * 1000 + 1/2 - 1 < ((⌊q * 1000 + 1/2⌋ : ℤ) : ℚ) := Int.sub_one_lt_floor _
  rw [abs_le]
  constructor <;> linarith

/-- All three components of the (age-adjusted) outcome triple are
positive, for every condition type and age. -/
theorem adjustedOutcomeProbs_pos (condition_type : String) (age : ℤ) :
    0 < (adjustedOutcomeProbs condition_type age).1
    ∧ 0 < (adjustedOutcomeProbs condition_type age).2.1
    ∧ 0 < (adjustedOutcomeProbs condition_type age).2.2 := by
  unfold adjustedOutcomeProbs baseOutcomeProbs
  split_ifs <;> norm_num

/-! ## Claim theorems -/

/-- C1.  For every category-score map, age and gender, the diagnosis
generator considers exactly the categories with score > 0.3, computes for
each condition of that category's static table
`confidence = min(base_confidence * category_score * age_factor * gender_factor, 0.98)`
with `age_factor = 1.1` if age>65 or age<5, `1.05` if 50<age≤65, else
`1.0`, and `gender_factor = 1.0`; keeps the candidates with confidence ≥
0.7 (the default threshold), sorts descending by confidence and returns at
most 5.  (Stored candidate confidences are rounded to three decimals, an
output-formatting step on both sides.) -/
theorem generateDiagnoses_matches_spec (category_scores : List (String × ℚ))
    (age : ℤ) (gender : String) :
    generateDiagnoses category_scores age gender =
      specGenerateDiagnoses category_scores age gender := by
  unfold generateDiagnoses specGenerateDiagnoses
  rw [diagnosisCandidates_eq_spec]

/-- C7.  Every candidate returned by the diagnosis generator has a
confidence in `[0, 0.98]`, the returned list is sorted non-increasing by
confidence, and its length is at most 5. -/
theorem generateDiagnoses_bounded_sorted_top5 (category_scores : List (String × ℚ))
    (age : ℤ) (gender : String) :
    (∀ d ∈ generateDiagnoses category_scores age gender,
      0 ≤ d.confidence ∧ d.confidence ≤ 0.98)
    ∧ (generateDiagnoses category_scores age gender).Pairwise
        (fun p q => q.confidence ≤ p.confidence)
    ∧ (generateDiagnoses category_scores age gender).length ≤ 5 := by
  refine ⟨?_, ?_, ?_⟩
  · intro d hd
    have hmem : d ∈ sortDesc (diagnosisCandidates age gender category_scores) :=
      (List.take_sublist 5 _).mem hd
    exact diagnosisCandidates_confidence_bounds (mem_sortDesc.mp hmem)
  · exact (sortDesc_pairwise _).sublist (List.take_sublist 5 _)
  · unfold generateDiagnoses
    exact List.length_take_le 5 _

/-- Witness for C7 at the concrete input `[("cardiac", 1)]`, age 70: the
top returned diagnosis (Chest Pain Syndrome, confidence 0.935) is within
the bounds. -/
theorem generateDiagnoses_bounded_sorted_top5_witness :
    0 ≤ (⟨"Chest Pain Syndrome", 187/200, "High", "cardiac"⟩ : Diagnosis).confidence
    ∧ (⟨"Chest Pain Syndrome", 187/200, "High", "cardiac"⟩ : Diagnosis).confidence ≤ 0.98 :=
  (generateDiagnoses_bounded_sorted_top5 [("cardiac", 1)] 70 "M").1
    ⟨"Chest Pain Syndrome", 187/200, "High", "cardiac"⟩
    (by with_unfolding_all decide)

/-- C8.  The recommendation generator returns the single
professional-evaluation item for an empty diagnosis list; otherwise the
fixed 3-item baseline extended with 3 urgent items when some candidate has
severity "High", else with 2 routine-followup items. -/
theorem generateRecommendations_spec (diagnoses : List Diagnosis) :
    generateRecommendations diagnoses =
      (if diagnoses.isEmpty then [consultRecommendation]
       else baselineRecommendations ++
         (if ∃ d ∈ diagnoses, d.severity = "High" then urgentRecommendations
          else routineFollowupRecommendations))
    ∧ baselineRecommendations.length = 3
    ∧ urgentRecommendations.length = 3
    ∧ routineFollowupRecommendations.length = 2
    ∧ (generateRecommendations []).length = 1 := by
  refine ⟨?_, rfl, rfl, rfl, rfl⟩
  unfold generateRecommendations consultRecommendation baselineRecommendations
    urgentRecommendations routineFollowupRecommendations
  by_cases hempty : diagnoses.isEmpty
  · rw [if_pos hempty, if_pos hempty]
  · rw [if_neg hempty, if_neg hempty]
    by_cases hhigh : ∃ d ∈ diagnoses, d.severity = "High"
    · have hany : diagnoses.any (fun d => d.severity == "High") = true := by
        rw [List.any_eq_true]
        obtain ⟨d, hd, hsev⟩ := hhigh
        exact ⟨d, hd, beq_iff_eq.mpr hsev⟩
      rw [if_pos hhigh, if_pos hany]
    · have hany : diagnoses.any (fun d => d.severity == "High") = false := by
        rw [List.any_eq_false]
        intro d hd
        simp only [beq_iff_eq]
        exact fun hsev => hhigh ⟨d, hd, hsev⟩
      rw [if_neg hhigh, hany]
      simp

/-- C2.  For every condition type and age the normalized outcome triple
sums to exactly 1: the per-type base triple, after the age>65 adjustment
(`full *= 0.9`, `chronic *= 1.5`), is divided entrywise by its total.  The
returned fields are these quotients rounded to three decimals, so the
returned triple sums to 1 up to rounding (within `3/2000`). -/
theorem outcomeProbabilities_sum_one (condition_type : String) (age : ℤ) :
    ((adjustedOutcomeProbs condition_type age).1
        / ((adjustedOutcomeProbs condition_type age).1
          + (adjustedOutcomeProbs condition_type age).2.1
          + (adjustedOutcomeProbs condition_type age).2.2)
      + (adjustedOutcomeProbs condition_type age).2.1
        / ((adjustedOutcomeProbs condition_type age).1
          + (adjustedOutcomeProbs condition_type age).2.1
          + (adjustedOutcomeProbs condition_type age).2.2)
      + (adjustedOutcomeProbs condition_type age).2.2
        / ((adjustedOutcomeProbs condition_type age).1
          + (adjustedOutcomeProbs condition_type age).2.1
          + (adjustedOutcomeProbs condition_type age).2.2) = 1)
    ∧ calculateOutcomeProbabilities condition_type age =
        { full_recovery := pyRound3 ((adjustedOutcomeProbs condition_type age).1
            / ((adjustedOutcomeProbs condition_type age).1
              + (adjustedOutcomeProbs condition_type age).2.1
              + (adjustedOutcomeProbs condition_type age).2.2)),
          partial_recovery := pyRound3 ((adjustedOutcomeProbs condition_type age).2.1
            / ((adjustedOutcomeProbs condition_type age).1
              + (adjustedOutcomeProbs condition_type age).2.1
              + (adjustedOutcomeProbs condition_type age).2.2)),
          chronic_condition := pyRound3 ((adjustedOutcomeProbs condition_type age).2.2
            / ((adjustedOutcomeProbs condition_type age).1
              + (adjustedOutcomeProbs condition_type age).2.1
              + (adjustedOutcomeProbs condition_type age).2.2)) }
    ∧ |(calculateOutcomeProbabilities condition_type age).full_recovery
        + (calculateOutcomeProbabilities condition_type age).partial_recovery
        + (calculateOutcomeProbabilities condition_type age).chronic_condition - 1|
      ≤ 3/2000 := by
  obtain ⟨h1, h2, h3⟩ := adjustedOutcomeProbs_pos condition_type age
  set b := adjustedOutcomeProbs condition_type age with hb
  have htot : b.1 + b.2.1 + b.2.2 ≠ 0 := by positivity
  have hsum : b.1 / (b.1 + b.2.1 + b.2.2) + b.2.1 / (b.1 + b.2.1 + b.2.2)
      + b.2.2 / (b.1 + b.2.1 + b.2.2) = 1 := by
    rw [div_add_div_same, div_add_div_same, div_self htot]
  have hcalc : calculateOutcomeProbabilities condition_type age =
      { full_recovery := pyRound3 (b.1 / (b.1 + b.2.1 + b.2.2)),
        partial_recovery := pyRound3 (b.2.1 / (b.1 + b.2.1 + b.2.2)),
        chronic_condition := pyRound3 (b.2.2 / (b.1 + b.2.1 + b.2.2)) } := by
    unfold calculateOutcomeProbabilities
    rw [← hb]
  refine ⟨hsum, hcalc, ?_⟩
  rw [hcalc]
  have e1 := pyRound3_sub_abs_le (b.1 / (b.1 + b.2.1 + b.2.2))
  have e2 := pyRound3_sub_abs_le (b.2.1 / (b.1 + b.2.1 + b.2.2))
  have e3 := pyRound3_sub_abs_le (b.2.2 / (b.1 + b.2.1 + b.2.2))
  rw [abs_le] at e1 e2 e3 ⊢
  constructor <;> [skip; skip] <;>
    · simp only
      linarith

/-- C6.  The outcome-predictor classifier checks the keyword groups in the
fixed priority order cardiac, respiratory, neurological, infectious, then
"general", the first match winning; and
`predict("cough and fever", age=10, priority="Low")` classifies as
"respiratory" with `age_multiplier = 0.8`, `priority_multiplier = 0.9` and
`estimated_days = int(7*0.8*0.9) = 5`. -/
theorem classifyConditionType_priority_order :
    (∀ symptoms : Text, classifyConditionType symptoms = specPriorityClassify symptoms)
    ∧ classifyConditionType "cough and fever".toList = "respiratory"
    ∧ ageMultiplier 10 = 0.8
    ∧ priorityMultiplier "Low" = 0.9
    ∧ (predictRecoveryTime "respiratory" 10 "Low").estimated_days = 5 := by
  refine ⟨?_, by with_unfolding_all decide, by norm_num [ageMultiplier],
    by with_unfolding_all decide, by with_unfolding_all decide⟩
  intro symptoms
  unfold classifyConditionType specPriorityClassify specClassifierOrder
  cases h1 : cardiacCheckKeywords.any (fun k => isSubstrOf k (lowerText symptoms)) <;>
    cases h2 : respiratoryCheckKeywords.any (fun k => isSubstrOf k (lowerText symptoms)) <;>
      cases h3 : neurologicalCheckKeywords.any (fun k => isSubstrOf k (lowerText symptoms)) <;>
        cases h4 : infectiousCheckKeywords.any (fun k => isSubstrOf k (lowerText symptoms)) <;>
          simp [List.find?, h1, h2, h3, h4]

/-- C9 amended.  The recovery-time confidence is
`round(0.85 - variance*0.05, 2)`, unclamped: the raw formula is negative
for every variance strictly above 17 (and equals 0 at exactly 17; the
rounded value is negative for every integer variance at least 18); for the
configured tables — variance 2 (infectious), 3 (respiratory), 5 (general
default), 7 (cardiac), 10 (neurological) — the confidences are 0.75, 0.70,
0.60, 0.50, 0.35. -/
theorem recoveryConfidence_values :
    (∀ v : ℚ, 17 < v → recoveryConfidence v < 0)
    ∧ recoveryConfidence 17 = 0
    ∧ (∀ v : ℤ, 18 ≤ v → pyRound2 (recoveryConfidence (v : ℚ)) < 0)
    ∧ (∀ (age : ℤ) (priority : String),
        (predictRecoveryTime "infectious" age priority).confidence = 0.75
        ∧ (predictRecoveryTime "respiratory" age priority).confidence = 0.70
        ∧ (predictRecoveryTime "general" age priority).confidence = 0.60
        ∧ (predictRecoveryTime "cardiac" age priority).confidence = 0.50
        ∧ (predictRecoveryTime "neurological" age priority).confidence = 0.35) := by
  refine ⟨?_, by norm_num [recoveryConfidence], ?_, ?_⟩
  · intro v hv
    unfold recoveryConfidence
    linarith
  · intro v hv
    unfold pyRound2 recoveryConfidence
    have harg : (0.85 : ℚ) - (v : ℚ) * 0.05 ≤ -0.05 := by
      have : (18 : ℚ) ≤ (v : ℚ) := by exact_mod_cast hv
      linarith
    have hfl : ((⌊((0.85 : ℚ) - (v : ℚ) * 0.05) * 100 + 1/2⌋ : ℤ) : ℚ)
        ≤ ((0.85 : ℚ) - (v : ℚ) * 0.05) * 100 + 1/2 := Int.floor_le _
    have : ((⌊((0.85 : ℚ) - (v : ℚ) * 0.05) * 100 + 1/2⌋ : ℤ) : ℚ) ≤ -4.5 := by linarith
    have hneg : ((⌊((0.85 : ℚ) - (v : ℚ) * 0.05) * 100 + 1/2⌋ : ℤ) : ℚ) < 0 := by linarith
    have h100 : (0 : ℚ) < 100 := by norm_num
    exact div_neg_of_neg_of_pos hneg h100
  · intro age priority
    have hinf : recoveryModels "infectious" = some ⟨5, 2, 0.10⟩ := rfl
    have hresp : recoveryModels "respiratory" = some ⟨7, 3, 0.15⟩ := rfl
    have hgen : recoveryModels "general" = none := rfl
    have hcard : recoveryModels "cardiac" = some ⟨14, 7, 0.25⟩ := rfl
    have hneur : recoveryModels "neurological" = some ⟨21, 10, 0.20⟩ := rfl
    refine ⟨?_, ?_, ?_, ?_, ?_⟩
    · simp only [predictRecoveryTime, hinf]
      norm_num [recoveryConfidence, pyRound2, Int.floor_eq_iff]
    · simp only [predictRecoveryTime, hresp]
      norm_num [recoveryConfidence, pyRound2, Int.floor_eq_iff]
    · simp only [predictRecoveryTime, hgen]
      norm_num [recoveryConfidence, pyRound2, Int.floor_eq_iff]
    · simp only [predictRecoveryTime, hcard]
      norm_num [recoveryConfidence, pyRound2, Int.floor_eq_iff]
    · simp only [predictRecoveryTime, hneur]
      norm_num [recoveryConfidence, pyRound2, Int.floor_eq_iff]

/-- Counterexample to C9 as stated: at variance exactly 17 the confidence
is exactly 0, not below 0. -/
theorem recoveryConfidence_at_17 :
    recoveryConfidence 17 = 0 ∧ ¬ recoveryConfidence 17 < 0 := by
  norm_num [recoveryConfidence]

/-- Witness for C9 (amended): at variance 18 the raw and the rounded
confidence are negative. -/
theorem recoveryConfidence_values_witness :
    recoveryConfidence 18 < 0 ∧ pyRound2 (recoveryConfidence ((18 : ℤ) : ℚ)) < 0 :=
  ⟨recoveryConfidence_values.1 18 (by norm_num),
   recoveryConfidence_values.2.2.1 18 (by norm_num)⟩

/-- C10.  Passing age 0 to the service manager is indistinguishable from
passing no age at all — the `if age:` truthiness guard drops it and the
pipelines run with the default age 30 — so an age-0 patient gets a
30-year-old's factors (diagnosis age factor 1 instead of the age<5 factor
1.1, recovery age multiplier 1 instead of the age<18 multiplier 0.8).  The
HTTP routes coerce a missing age to 0 before calling the façade. -/
theorem age_zero_dropped (symptoms : Text) (gender priority : Option String) :
    managerGetDiagnosis symptoms (some 0) gender = managerGetDiagnosis symptoms none gender
    ∧ managerGetDiagnosis symptoms (some 0) gender = managerGetDiagnosis symptoms (some 30) gender
    ∧ managerGetPredictions symptoms (some 0) priority = managerGetPredictions symptoms none priority
    ∧ managerGetPredictions symptoms (some 0) priority = managerGetPredictions symptoms (some 30) priority
    ∧ routeAgeVal none = 0
    ∧ processSymptomCheck symptoms (some (routeAgeVal none)) gender
        = processSymptomCheck symptoms (some 30) gender
    ∧ ageFactor 0 = 1.1 ∧ ageFactor 30 = 1
    ∧ ageMultiplier 0 = 0.8 ∧ ageMultiplier 30 = 1 := by
  have hta0 : truthyAge (some 0) = none := by simp [truthyAge]
  have hta30 : truthyAge (some 30) = some 30 := by simp [truthyAge]
  have hdiag : managerGetDiagnosis symptoms (some 0) gender
      = managerGetDiagnosis symptoms none gender := by
    unfold managerGetDiagnosis
    rw [hta0]
    rfl
  have hdiag30 : managerGetDiagnosis symptoms (some 0) gender
      = managerGetDiagnosis symptoms (some 30) gender := by
    unfold managerGetDiagnosis
    rw [hta0, hta30]
    rfl
  have hpred : managerGetPredictions symptoms (some 0) priority
      = managerGetPredictions symptoms none priority := by
    unfold managerGetPredictions
    rw [hta0]
    rfl
  have hpred30 : managerGetPredictions symptoms (some 0) priority
      = managerGetPredictions symptoms (some 30) priority := by
    unfold managerGetPredictions
    rw [hta0, hta30]
    rfl
  refine ⟨hdiag, hdiag30, hpred, hpred30, rfl, ?_, ?_, ?_, ?_, ?_⟩
  · unfold processSymptomCheck
    rw [show routeAgeVal none = 0 from rfl, hdiag30]
  · norm_num [ageFactor]
  · norm_num [ageFactor]
  · norm_num [ageMultiplier]
  · norm_num [ageMultiplier]

theorem lookup_cons_self {β : Type} (a : String) (b : β) (l : List (String × β)) :
    List.lookup a ((a, b) :: l) = some b := by
  simp [List.lookup]

theorem lookup_cons_ne {β : Type} {a c : String} (b : β) (l : List (String × β))
    (h : c ≠ a) : List.lookup a ((c, b) :: l) = List.lookup a l := by
  simp only [List.lookup]
  rw [show (a == c) = false from beq_eq_false_iff_ne.mpr (fun hac => h hac.symm)]

/-- Categories whose name does not occur in the keyword table are absent
from the classifier's score map. -/
theorem lookup_analyzeAux_not_mem (text : Text) (L : List (String × List Text))
    (cat : String) (hcat : cat ∉ L.map Prod.fst) :
    (analyzeAux text L).lookup cat = none := by
  induction L with
  | nil => rfl
  | cons p rest ih =>
    obtain ⟨c, ckws⟩ := p
    simp only [List.map_cons, List.mem_cons, not_or] at hcat
    unfold analyzeAux
    dsimp only
    split_ifs with h
    · rw [lookup_cons_ne _ _ (fun hca => hcat.1 hca.symm)]
      exact ih hcat.2
    · exact ih hcat.2

/-- Score-map characterisation of the keyword classifier: a category's
entry is `min(matched / total, 1.0)`, present exactly when at least one
keyword matched. -/
theorem lookup_analyzeAux_mem (text : Text) (L : List (String × List Text))
    (cat : String) (kws : List Text) (hmem : (cat, kws) ∈ L)
    (hnodup : (L.map Prod.fst).Nodup) :
    (analyzeAux text L).lookup cat =
      (if kws.countP (fun k => isSubstrOf k text) = 0 then none
       else some (min ((kws.countP (fun k => isSubstrOf k text) : ℚ) / (kws.length : ℚ)) 1)) := by
  induction L with
  | nil => cases hmem
  | cons p rest ih =>
    obtain ⟨c, ckws⟩ := p
    simp only [List.map_cons, List.nodup_cons] at hnodup
    rcases List.mem_cons.mp hmem with heq | hrest
    · injection heq with h1 h2
      subst h1
      subst h2
      unfold analyzeAux
      dsimp only
      by_cases hcnt : 0 < kws.countP (fun k => isSubstrOf k text)
      · rw [if_pos hcnt, lookup_cons_self,
          if_neg (Nat.pos_iff_ne_zero.mp hcnt)]
      · rw [if_neg hcnt, lookup_analyzeAux_not_mem text rest cat hnodup.1,
          if_pos (Nat.eq_zero_of_not_pos hcnt)]
    · have hc : c ≠ cat := by
        intro hca
        exact hnodup.1 (hca ▸ List.mem_map_of_mem Prod.fst hrest)
      unfold analyzeAux
      dsimp only
      by_cases hcc : 0 < ckws.countP (fun k => isSubstrOf k text)
      · rw [if_pos hcc, lookup_cons_ne _ _ hc]
        exact ih hrest hnodup.2
      · rw [if_neg hcc]
        exact ih hrest hnodup.2

/-- C5.  For every input text, the classifier's score for a category is
(number of that category's keywords occurring as substrings) / (total
keywords of the category), capped at 1.0; a category with zero matches is
absent; and empty input yields the empty score map. -/
theorem analyzeSymptomCategories_scores (text : Text) (cat : String)
    (kws : List Text) (h : (cat, kws) ∈ symptomKeywords) :
    ((analyzeSymptomCategories text).lookup cat =
      (if kws.countP (fun k => isSubstrOf k text) = 0 then none
       else some (min ((kws.countP (fun k => isSubstrOf k text) : ℚ) / (kws.length : ℚ)) 1)))
    ∧ analyzeSymptomCategories [] = [] := by
  constructor
  · exact lookup_analyzeAux_mem text symptomKeywords cat kws h (by decide)
  · decide

/-- Witness for C5: on the text "cough", the respiratory category scores
`1/5` (one keyword of five matched). -/
theorem analyzeSymptomCategories_scores_witness :
    (analyzeSymptomCategories "cough".toList).lookup "respiratory" = some (1/5) := by
  have h := (analyzeSymptomCategories_scores "cough".toList "respiratory"
      ["cough".toList, "shortness of breath".toList, "dyspnea".toList, "wheezing".toList,
       "chest pain".toList] (by decide)).1
  rw [h]
  with_unfolding_all decide

/-- Counterexample to C3 as stated: on
"severe chest pain and shortness of breath", age 70, gender "Male", the
generated diagnosis list is empty — there is no top cardiac diagnosis —
and the urgent recommendations are absent. -/
theorem chestPain_example_cx :
    generateDiagnoses
        (analyzeSymptomCategories "severe chest pain and shortness of breath".toList)
        70 "Male" = []
    ∧ "Consider immediate medical intervention" ∉
        generateRecommendations (generateDiagnoses
          (analyzeSymptomCategories "severe chest pain and shortness of breath".toList)
          70 "Male") := by
  with_unfolding_all decide

/-- C3 amended.  On "severe chest pain and shortness of breath", age 70,
gender "Male": the category scores for respiratory (0.4) and cardiac
(0.25) are both positive, and the age factor is 1.1; but the cardiac score
fails the `> 0.3` gate and every respiratory confidence stays below the
0.7 threshold, so the pipeline returns an empty diagnosis list with the
single professional-evaluation recommendation. -/
theorem chestPain_example_amended :
    analyzeSymptomCategories "severe chest pain and shortness of breath".toList
      = [("respiratory", 2/5), ("cardiac", 1/4)]
    ∧ ((0:ℚ) < 2/5 ∧ (0:ℚ) < 1/4)
    ∧ ¬ ((0.3:ℚ) < 1/4)
    ∧ ageFactor 70 = 1.1
    ∧ diagnosticProcess
        ⟨some "severe chest pain and shortness of breath".toList, some 70, some "Male"⟩
      = .ok ⟨[], [consultRecommendation], 0⟩ := by
  with_unfolding_all decide

/-- Counterexample to C4 as stated: for the empty symptom string the
pipeline raises nothing (validation only checks that the `symptoms` key
exists) and the façade returns `success: true` with no fallback payload. -/
theorem emptySymptoms_cx :
    diagnosticProcess ⟨some "".toList, some 0, some "Male"⟩ =
      .ok ⟨[], [consultRecommendation], 0⟩
    ∧ (processSymptomCheck "".toList (some 0) (some "Male")).success = true
    ∧ (processSymptomCheck "".toList (some 0) (some "Male")).fallback_data = none := by
  with_unfolding_all decide

/-- C4 amended.  For empty-string symptoms the pipeline raises no
validation error: it returns an empty diagnosis list with the
consult-professional recommendation and confidence 0, and the façade
reports success with no fallback payload.  A validation error is raised
only when the `symptoms` key itself is missing.  (The HTTP route rejects
empty symptoms with a 400 before the pipeline ever runs.) -/
theorem emptySymptoms_no_validation_error (age : Option ℤ) (gender : Option String) :
    diagnosticProcess ⟨some [], age, gender⟩ = .ok ⟨[], [consultRecommendation], 0⟩
    ∧ diagnosticProcess ⟨none, age, gender⟩ = .error "Missing required field: symptoms"
    ∧ (processSymptomCheck [] age gender).success = true
    ∧ (processSymptomCheck [] age gender).fallback_data = none := by
  refine ⟨?_, rfl, rfl, rfl⟩
  have hempty : analyzeSymptomCategories [] = [] := by decide
  simp [diagnosticProcess, lowerText, hempty, generateDiagnoses, diagnosisCandidates,
    sortDesc, generateRecommendations, consultRecommendation]

/-- Witness for C4 (amended) at the concrete input age 0, gender "Male". -/
theorem emptySymptoms_no_validation_error_witness :
    (processSymptomCheck [] (some 0) (some "Male")).success = true :=
  (emptySymptoms_no_validation_error (some 0) (some "Male")).2.2.1

end Nursle
